import Mathlib

/-
Verification of the toml1s repository (main.py and delete_all_jobs.py):
a credential-cached REST client with a job run-and-poll workflow.

Modelling conventions, used consistently below:
- Timestamps are natural numbers (seconds).  `datetime.now()` becomes an
  explicit `now : Nat` argument; `timedelta(hours=1)` is 3600.
- JSON values read with `.get(key, default)` are modelled so that Python
  falsy values collapse onto the default wherever the source only ever
  tests truthiness: a `String` field uses `""` for missing/null/empty, a
  list field uses `[]` for missing/null, an `Option` field uses `none`
  for missing/null/empty.  Entry-level `is not None` / `is None` checks
  are modelled precisely with `Option` entries (`none` = JSON null).
- A `requests` call is modelled by its outcome, `Except Unit r`: `.ok`
  carries the HTTP response, `.error ()` stands for a raised
  `requests.exceptions.RequestException` (network error).  A Python
  function that may let an exception escape returns `Except` itself;
  `.error` means the exception propagates to the caller uncaught.
- The credential file is a `List TokenData`: writing with mode "w"
  replaces the whole list by a singleton, so overwriting and appending
  are distinguishable states.
-/

/-! ## Run attributes and their classification (main.py, poll_run_status lines 100-122) -/

/-- The `attributes` object of one run entry, as read by `poll_run_status`:
`status = attributes.get("status", "")`, `fatalErrors = attributes.get("fatalErrors", [])`,
`finishedAt = attributes.get("finishedAt")`, `outputs = attributes.get("outputs", [])`,
`errors = attributes.get("errors", [])`. -/
structure RunAttributes where
  status : String
  fatalErrors : List (Option String)
  finishedAt : Option String
  outputs : List (Option String)
  errors : List (Option String)
  deriving DecidableEq, Repr

/-- Result of classifying one run record: the poller either returns
"errored"/"completed" or keeps polling. -/
inductive Classification where
  | errored
  | completed
  | continuePolling
  deriving DecidableEq, Repr

/-- The classification block of `poll_run_status` (main.py lines 104-122),
factored out as the pure function of the attribute fields that it is:
`if fatal_errors and any(e is not None for e in fatal_errors): return "errored"`;
`if status: ...lower() == "completed"/"errored"...`;
`elif finished_at: if outputs and all(o is not None for o in outputs) and
(not errors or all(e is None for e in errors)) ...`; `else:` keep polling. -/
def classifyRun (a : RunAttributes) : Classification :=
  if !a.fatalErrors.isEmpty && a.fatalErrors.any (fun e => e.isSome) then
    .errored
  else if a.status != "" then
    if a.status.toLower == "completed" then .completed
    else if a.status.toLower == "errored" then .errored
    else .continuePolling
  else if a.finishedAt.isSome then
    if !a.outputs.isEmpty && a.outputs.all (fun o => o.isSome) &&
        (a.errors.isEmpty || a.errors.all (fun e => e.isNone)) then .completed
    else .errored
  else .continuePolling

/-- The four-step precedence exactly as the specification words it:
any non-null fatal error entry gives Errored; else a non-empty status maps
"completed"/"errored" case-insensitively and any other non-empty status keeps
polling; else a present finish timestamp inspects outputs/errors; else pending. -/
def classifySpec (a : RunAttributes) : Classification :=
  if ∃ e ∈ a.fatalErrors, e ≠ none then .errored
  else if a.status ≠ "" then
    if a.status.toLower = "completed" then .completed
    else if a.status.toLower = "errored" then .errored
    else .continuePolling
  else if a.finishedAt ≠ none then
    if a.outputs ≠ [] ∧ (∀ o ∈ a.outputs, o ≠ none) ∧
        (a.errors = [] ∨ ∀ e ∈ a.errors, e = none) then .completed
    else .errored
  else .continuePolling

/-! ## The polling loop (main.py, poll_run_status lines 84-131) -/

/-- One entry of the run listing: `id` is the run id after Python's `str(...)`
conversion, `attributes = run.get("attributes", {})`. -/
structure RunEntry where
  id : String
  attributes : RunAttributes
  deriving DecidableEq, Repr

/-- One response of `GET /v2/jobs/{job_id}/runs`: its HTTP status code and the
parsed `data` list of the JSON body. -/
structure RunsResponse where
  statusCode : Nat
  data : List RunEntry
  deriving DecidableEq, Repr

/-- The environment of one loop iteration: the outcome of the `requests.get`
(`.error ()` = raised network exception) and the value of
`time.time() - start_time` at the timeout check of that iteration. -/
structure PollStep where
  response : Except Unit RunsResponse
  elapsed : Nat
  deriving Repr

/-- Terminal run status as returned by `poll_run_status`. -/
inductive RunStatus where
  | completed
  | errored
  deriving DecidableEq, Repr

/-- Observable outcome of `poll_run_status`: a returned Python value
(`some completed`, `some errored`, or `none` for `None`), a raised exception
that escapes the function, or the supplied iteration trace being exhausted
while the loop would still continue. -/
inductive PollOutcome where
  | result : Option RunStatus → PollOutcome
  | raised
  | outOfTrace
  deriving DecidableEq, Repr

/-- `poll_run_status(job_id, job_run_id, ...)` (main.py lines 84-131), with the
iteration environments supplied as a trace.  Each iteration: the GET either
raises (uncaught, so the whole call raises) or yields a response; on status
200 the run with matching id is classified via `classifyRun`; "errored" and
"completed" return immediately; otherwise (no match, or classification says
keep polling) the timeout is checked (`time.time() - start_time > timeout`
returns `None`), and the loop continues.  A non-200 response returns `None`
immediately. -/
def pollRunStatus (jobRunId : String) (timeout : Nat) : List PollStep → PollOutcome
  | [] => .outOfTrace
  | step :: rest =>
    match step.response with
    | .error _ => .raised
    | .ok resp =>
      if resp.statusCode == 200 then
        match resp.data.find? (fun r => r.id == jobRunId) with
        | some run =>
          match classifyRun run.attributes with
          | .errored => .result (some .errored)
          | .completed => .result (some .completed)
          | .continuePolling =>
            if step.elapsed > timeout then .result none
            else pollRunStatus jobRunId timeout rest
        | none =>
          if step.elapsed > timeout then .result none
          else pollRunStatus jobRunId timeout rest
      else .result none

/-- What a single loop iteration decides: `some o` when the iteration makes
`poll_run_status` stop with outcome `o`, `none` when the loop continues to the
next iteration. -/
def stepDecision (jobRunId : String) (timeout : Nat) (step : PollStep) : Option PollOutcome :=
  match step.response with
  | .error _ => some .raised
  | .ok resp =>
    if resp.statusCode ≠ 200 then some (.result none)
    else if (resp.data.find? (fun r => r.id == jobRunId)).map
        (fun run => classifyRun run.attributes) = some .errored then
      some (.result (some .errored))
    else if (resp.data.find? (fun r => r.id == jobRunId)).map
        (fun run => classifyRun run.attributes) = some .completed then
      some (.result (some .completed))
    else if timeout < step.elapsed then some (.result none)
    else none

/-- The iteration answered 200, the matching run (if listed) classifies as
keep-polling, and the timeout has not expired: the loop continues. -/
def continuesAt (jobRunId : String) (timeout : Nat) (s : PollStep) : Prop :=
  ∃ resp, s.response = .ok resp ∧ resp.statusCode = 200 ∧
    (∀ run ∈ resp.data.find? (fun r => r.id == jobRunId),
      classifyRun run.attributes = .continuePolling) ∧
    s.elapsed ≤ timeout

/-- The run-listing query returned a non-200 response on this iteration. -/
def queryFailsAt (s : PollStep) : Prop :=
  ∃ resp, s.response = .ok resp ∧ resp.statusCode ≠ 200

/-- The iteration would continue (200, no terminal classification) but the
elapsed wall-clock time exceeds the timeout. -/
def timeoutExpiresAt (jobRunId : String) (timeout : Nat) (s : PollStep) : Prop :=
  ∃ resp, s.response = .ok resp ∧ resp.statusCode = 200 ∧
    (∀ run ∈ resp.data.find? (fun r => r.id == jobRunId),
      classifyRun run.attributes = .continuePolling) ∧
    timeout < s.elapsed

/-- The iteration answered 200 and the matching run classifies as the terminal
status `st`. -/
def terminalAt (jobRunId : String) (s : PollStep) (st : RunStatus) : Prop :=
  ∃ resp run, s.response = .ok resp ∧ resp.statusCode = 200 ∧
    resp.data.find? (fun r => r.id == jobRunId) = some run ∧
    classifyRun run.attributes =
      (match st with
        | .completed => Classification.completed
        | .errored => Classification.errored)

theorem find_classify_continue_iff (jobRunId : String) (l : List RunEntry) :
    ((l.find? (fun r => r.id == jobRunId)).map (fun run => classifyRun run.attributes)
        ≠ some .errored ∧
     (l.find? (fun r => r.id == jobRunId)).map (fun run => classifyRun run.attributes)
        ≠ some .completed) ↔
    ∀ run ∈ l.find? (fun r => r.id == jobRunId),
      classifyRun run.attributes = .continuePolling := by
  cases h : l.find? (fun r => r.id == jobRunId) with
  | none => simp
  | some run => cases hc : classifyRun run.attributes <;> simp [hc]

theorem pollRunStatus_cons (jobRunId : String) (timeout : Nat) (s : PollStep)
    (rest : List PollStep) :
    pollRunStatus jobRunId timeout (s :: rest) =
      (stepDecision jobRunId timeout s).getD (pollRunStatus jobRunId timeout rest) := by
  rcases s with ⟨resp, elapsed⟩
  cases resp with
  | error e => rfl
  | ok r =>
    by_cases h200 : r.statusCode = 200
    · cases hfind : r.data.find? (fun x => x.id == jobRunId) with
      | none =>
        by_cases ht : timeout < elapsed <;>
          simp [pollRunStatus, stepDecision, h200, hfind, ht, gt_iff_lt]
      | some run =>
        cases hcl : classifyRun run.attributes <;>
          by_cases ht : timeout < elapsed <;>
            simp [pollRunStatus, stepDecision, h200, hfind, hcl, ht, gt_iff_lt]
    · simp [pollRunStatus, stepDecision, h200]

theorem stepDecision_eq_none_iff (jobRunId : String) (timeout : Nat) (s : PollStep) :
    stepDecision jobRunId timeout s = none ↔ continuesAt jobRunId timeout s := by
  rcases s with ⟨resp, elapsed⟩
  cases resp with
  | error e => simp [stepDecision, continuesAt]
  | ok r =>
    simp only [stepDecision]
    constructor
    · intro h
      split_ifs at h with h200 herr hcomp ht
      refine ⟨r, rfl, not_not.mp h200, ?_, Nat.le_of_not_lt ht⟩
      exact (find_classify_continue_iff jobRunId r.data).mp ⟨herr, hcomp⟩
    · rintro ⟨resp', hresp, h200, hrun, hle⟩
      rw [Except.ok.injEq] at hresp
      subst hresp
      have hcc := (find_classify_continue_iff jobRunId r.data).mpr hrun
      split_ifs with h1 h2 h3 h4
      · exact absurd h200 h1
      · exact absurd h2 hcc.1
      · exact absurd h3 hcc.2
      · exact absurd hle (Nat.not_le.mpr h4)
      · rfl

theorem stepDecision_eq_unknown_iff (jobRunId : String) (timeout : Nat) (s : PollStep) :
    stepDecision jobRunId timeout s = some (.result none) ↔
      queryFailsAt s ∨ timeoutExpiresAt jobRunId timeout s := by
  rcases s with ⟨resp, elapsed⟩
  cases resp with
  | error e => simp [stepDecision, queryFailsAt, timeoutExpiresAt]
  | ok r =>
    simp only [stepDecision]
    constructor
    · intro h
      split_ifs at h with h200 herr hcomp ht
      · exact Or.inl ⟨r, rfl, h200⟩
      · exact absurd h (by simp)
      · exact absurd h (by simp)
      · exact Or.inr ⟨r, rfl, not_not.mp h200,
          (find_classify_continue_iff jobRunId r.data).mp ⟨herr, hcomp⟩, ht⟩
    · rintro (⟨resp', hresp, h200⟩ | ⟨resp', hresp, h200, hrun, hlt⟩)
      · rw [Except.ok.injEq] at hresp
        subst hresp
        rw [if_pos h200]
      · rw [Except.ok.injEq] at hresp
        subst hresp
        have hcc := (find_classify_continue_iff jobRunId r.data).mpr hrun
        rw [if_neg (not_not.mpr h200), if_neg hcc.1, if_neg hcc.2, if_pos hlt]

theorem stepDecision_eq_terminal_iff (jobRunId : String) (timeout : Nat) (s : PollStep)
    (st : RunStatus) :
    stepDecision jobRunId timeout s = some (.result (some st)) ↔
      terminalAt jobRunId s st := by
  rcases s with ⟨resp, elapsed⟩
  cases resp with
  | error e => simp [stepDecision, terminalAt]
  | ok r =>
    simp only [stepDecision]
    constructor
    · intro h
      split_ifs at h with h200 herr hcomp ht
      · exact absurd h (by cases st <;> simp)
      · rw [Option.some_inj] at h
        cases hfind : r.data.find? (fun x => x.id == jobRunId) with
        | none => rw [hfind] at herr; exact absurd herr (by simp)
        | some run =>
          rw [hfind] at herr
          rw [Option.map_some', Option.some_inj] at herr
          cases st with
          | errored => exact ⟨r, run, rfl, not_not.mp h200, hfind, herr⟩
          | completed => exact absurd h (by simp)
      · rw [Option.some_inj] at h
        cases hfind : r.data.find? (fun x => x.id == jobRunId) with
        | none => rw [hfind] at hcomp; exact absurd hcomp (by simp)
        | some run =>
          rw [hfind] at hcomp
          rw [Option.map_some', Option.some_inj] at hcomp
          cases st with
          | completed => exact ⟨r, run, rfl, not_not.mp h200, hfind, hcomp⟩
          | errored => exact absurd h (by simp)
      · exact absurd h (by cases st <;> simp)
    · rintro ⟨resp', run, hresp, h200, hfind, hcl⟩
      rw [Except.ok.injEq] at hresp
      subst hresp
      rw [if_neg (not_not.mpr h200)]
      cases st with
      | completed =>
        have : (r.data.find? (fun x => x.id == jobRunId)).map
            (fun run => classifyRun run.attributes) = some .completed := by
          rw [hfind, Option.map_some', hcl]
        rw [if_neg (by rw [this]; simp), if_pos this]
      | errored =>
        have : (r.data.find? (fun x => x.id == jobRunId)).map
            (fun run => classifyRun run.attributes) = some .errored := by
          rw [hfind, Option.map_some', hcl]
        rw [if_pos this]

/-- A non-`outOfTrace` outcome is produced exactly by the first deciding
iteration, all earlier iterations continuing. -/
theorem pollRunStatus_eq_stop_iff (jobRunId : String) (timeout : Nat)
    (o : PollOutcome) (ho : o ≠ .outOfTrace) :
    ∀ steps : List PollStep,
      pollRunStatus jobRunId timeout steps = o ↔
        ∃ pre s rest, steps = pre ++ s :: rest ∧
          (∀ x ∈ pre, stepDecision jobRunId timeout x = none) ∧
          stepDecision jobRunId timeout s = some o := by
  intro steps
  induction steps with
  | nil =>
    simp only [pollRunStatus]
    constructor
    · intro h
      exact absurd h.symm ho
    · rintro ⟨pre, s, rest, h, -, -⟩
      exact absurd h (by simp)
  | cons s rest ih =>
    rw [pollRunStatus_cons]
    cases hd : stepDecision jobRunId timeout s with
    | none =>
      simp only [Option.getD_none]
      rw [ih]
      constructor
      · rintro ⟨pre, s', rest', heq, hpre, hs'⟩
        refine ⟨s :: pre, s', rest', by simp [heq], ?_, hs'⟩
        intro x hx
        rcases List.mem_cons.mp hx with h | h
        · subst h; exact hd
        · exact hpre x h
      · rintro ⟨pre, s', rest', heq, hpre, hs'⟩
        cases pre with
        | nil =>
          simp at heq
          rcases heq with ⟨h1, h2⟩
          subst h1
          rw [hd] at hs'
          exact absurd hs' (by simp)
        | cons p pre' =>
          simp at heq
          rcases heq with ⟨h1, h2⟩
          exact ⟨pre', s', rest', h2, fun x hx => hpre x (List.mem_cons_of_mem p hx), hs'⟩
    | some o' =>
      simp only [Option.getD_some]
      constructor
      · intro h
        subst h
        exact ⟨[], s, rest, rfl, by simp, hd⟩
      · rintro ⟨pre, s', rest', heq, hpre, hs'⟩
        cases pre with
        | nil =>
          simp at heq
          rcases heq with ⟨h1, h2⟩
          subst h1
          rw [hd] at hs'
          exact Option.some_inj.mp hs'
        | cons p pre' =>
          simp at heq
          rcases heq with ⟨h1, h2⟩
          subst h1
          have := hpre s (by simp)
          rw [hd] at this
          exact absurd this (by simp)

theorem pollRunStatus_append_continue (jobRunId : String) (timeout : Nat)
    (pre l : List PollStep)
    (hpre : ∀ x ∈ pre, stepDecision jobRunId timeout x = none) :
    pollRunStatus jobRunId timeout (pre ++ l) = pollRunStatus jobRunId timeout l := by
  induction pre with
  | nil => rfl
  | cons p pre' ih =>
    rw [List.cons_append, pollRunStatus_cons, hpre p (by simp), Option.getD_none]
    exact ih fun x hx => hpre x (List.mem_cons_of_mem p hx)

/-- Claim C2 counterexample: when the run-listing query raises a network error,
`poll_run_status` does not return Unknown (`None`); the exception propagates
uncaught (there is no try/except around the `requests.get`), so the call
raises instead. -/
theorem poll_network_error_raises_cex :
    pollRunStatus "1" 60 [⟨Except.error (), 0⟩] = .raised ∧
      PollOutcome.raised ≠ .result none := ⟨rfl, by decide⟩

/-- Claim C2 (amended): in any polling iteration reached by the loop (all
earlier iterations having continued), a non-200 run-listing response makes
`poll_run_status` abort immediately with `None`, without retrying the query;
a network error on the query also aborts immediately, but by propagating the
raised exception rather than returning `None`. -/
theorem poll_aborts_on_query_failure (jobRunId : String) (timeout : Nat)
    (pre : List PollStep) (s : PollStep) (rest : List PollStep)
    (hpre : ∀ x ∈ pre, continuesAt jobRunId timeout x) :
    (∀ resp, s.response = Except.ok resp → resp.statusCode ≠ 200 →
      pollRunStatus jobRunId timeout (pre ++ s :: rest) = .result none) ∧
    (s.response = Except.error () →
      pollRunStatus jobRunId timeout (pre ++ s :: rest) = .raised) := by
  have hpre' : ∀ x ∈ pre, stepDecision jobRunId timeout x = none :=
    fun x hx => (stepDecision_eq_none_iff jobRunId timeout x).mpr (hpre x hx)
  constructor
  · intro resp hresp hcode
    rw [pollRunStatus_append_continue jobRunId timeout pre (s :: rest) hpre',
      pollRunStatus_cons]
    have hs : stepDecision jobRunId timeout s = some (.result none) :=
      (stepDecision_eq_unknown_iff jobRunId timeout s).mpr (Or.inl ⟨resp, hresp, hcode⟩)
    rw [hs]
    rfl
  · intro hresp
    rw [pollRunStatus_append_continue jobRunId timeout pre (s :: rest) hpre',
      pollRunStatus_cons]
    have hs : stepDecision jobRunId timeout s = some .raised := by
      rcases s with ⟨sr, se⟩
      simp only at hresp
      subst hresp
      rfl
    rw [hs]
    rfl

/-- Witness for the amended C2: after one continuing iteration, a 404 listing
response makes the poll return `None` immediately. -/
theorem poll_aborts_on_query_failure_witness :
    pollRunStatus "1" 60 ([⟨Except.ok ⟨200, []⟩, 0⟩] ++ ⟨Except.ok ⟨404, []⟩, 0⟩ :: []) =
      .result none := by
  refine (poll_aborts_on_query_failure "1" 60 [⟨Except.ok ⟨200, []⟩, 0⟩]
      ⟨Except.ok ⟨404, []⟩, 0⟩ [] ?_).1 ⟨404, []⟩ rfl (by decide)
  intro x hx
  rw [List.mem_singleton] at hx
  subst hx
  exact ⟨⟨200, []⟩, rfl, rfl, by simp, by decide⟩

/-- Claim C3 counterexample: `poll_run_status` returns Unknown (`None`) on a
trace whose elapsed time never exceeds the timeout — the non-200 query-failure
path also returns `None`, so Unknown is not returned only on the timeout path. -/
theorem poll_unknown_without_timeout_cex :
    pollRunStatus "1" 60 [⟨Except.ok ⟨500, []⟩, 0⟩] = .result none ∧
      ∀ s ∈ ([⟨Except.ok ⟨500, []⟩, 0⟩] : List PollStep), s.elapsed ≤ 60 := by
  constructor
  · rfl
  · intro s hs
    rw [List.mem_singleton] at hs
    subst hs
    decide

/-- Claim C3 (amended): `poll_run_status` returns Unknown (`None`) exactly when
the first deciding iteration is a non-200 query response or a timeout expiry
(all earlier iterations continuing), and it returns Completed/Errored exactly
when the first deciding iteration reaches that terminal classification. -/
theorem poll_unknown_and_terminal_characterization (jobRunId : String) (timeout : Nat)
    (steps : List PollStep) :
    (pollRunStatus jobRunId timeout steps = .result none ↔
      ∃ pre s rest, steps = pre ++ s :: rest ∧
        (∀ x ∈ pre, continuesAt jobRunId timeout x) ∧
        (queryFailsAt s ∨ timeoutExpiresAt jobRunId timeout s)) ∧
    (∀ st : RunStatus, pollRunStatus jobRunId timeout steps = .result (some st) ↔
      ∃ pre s rest, steps = pre ++ s :: rest ∧
        (∀ x ∈ pre, continuesAt jobRunId timeout x) ∧
        terminalAt jobRunId s st) := by
  constructor
  · rw [pollRunStatus_eq_stop_iff jobRunId timeout (.result none) (by simp) steps]
    constructor
    · rintro ⟨pre, s, rest, heq, hpre, hs⟩
      exact ⟨pre, s, rest, heq,
        fun x hx => (stepDecision_eq_none_iff jobRunId timeout x).mp (hpre x hx),
        (stepDecision_eq_unknown_iff jobRunId timeout s).mp hs⟩
    · rintro ⟨pre, s, rest, heq, hpre, hs⟩
      exact ⟨pre, s, rest, heq,
        fun x hx => (stepDecision_eq_none_iff jobRunId timeout x).mpr (hpre x hx),
        (stepDecision_eq_unknown_iff jobRunId timeout s).mpr hs⟩
  · intro st
    rw [pollRunStatus_eq_stop_iff jobRunId timeout (.result (some st)) (by simp) steps]
    constructor
    · rintro ⟨pre, s, rest, heq, hpre, hs⟩
      exact ⟨pre, s, rest, heq,
        fun x hx => (stepDecision_eq_none_iff jobRunId timeout x).mp (hpre x hx),
        (stepDecision_eq_terminal_iff jobRunId timeout s st).mp hs⟩
    · rintro ⟨pre, s, rest, heq, hpre, hs⟩
      exact ⟨pre, s, rest, heq,
        fun x hx => (stepDecision_eq_none_iff jobRunId timeout x).mpr (hpre x hx),
        (stepDecision_eq_terminal_iff jobRunId timeout s st).mpr hs⟩

/-- Claim C1: the poller's classification of a run record follows the four-step
precedence exactly as specified, and is a pure function of the attribute fields. -/
theorem classifyRun_follows_spec :
    ∀ a : RunAttributes, classifyRun a = classifySpec a := by
  intro a
  unfold classifyRun classifySpec
  rcases a with ⟨status, fatalErrors, finishedAt, outputs, errors⟩
  split_ifs <;>
    simp_all [List.isEmpty_iff, List.any_eq_true, List.all_eq_true,
      Option.isSome_iff_ne_none, Option.isNone_iff_eq_none]

/-! ## Session manager (main.py lines 32-82; delete_all_jobs.py lines 31-89) -/

/-- Whether a modelled call returned normally, i.e. no exception escaped it. -/
def returnsNormally {ε α : Type} (x : Except ε α) : Bool :=
  match x with
  | .ok _ => true
  | .error _ => false

/-- One record of the credential file `chainlink_token.json`.  `Option`
encodes Python truthiness: `none` is a missing, null, or empty field value
(`data.get(...)` followed by a truthiness test); `expires` holds the
`datetime.fromisoformat` result as a timestamp. -/
structure TokenData where
  cookie_name : Option String
  token : Option String
  expires : Option Nat
  deriving DecidableEq, Repr

/-- `get_saved_token` (main.py lines 32-46; textually identical in
delete_all_jobs.py lines 31-45): reads the record (argument `file`, `none`
when the token file does not exist); if token, cookie name and expiry string
are all truthy and `datetime.now() < expiration`, returns the pair, otherwise
`(None, None)`. -/
def get_saved_token (file : Option TokenData) (now : Nat) : Option (String × String) :=
  match file with
  | none => none
  | some data =>
    match data.token, data.cookie_name, data.expires with
    | some token, some cookie_name, some expiration =>
      if now < expiration then some (cookie_name, token) else none
    | _, _, _ => none

/-- `save_token` (main.py lines 48-58; delete_all_jobs.py lines 47-58): writes
the record with `open(TOKEN_FILE, "w")`, which truncates the file first — the
new contents are the one record alone, whatever was stored before. -/
def save_token (cookie_name token : String) (expiration : Nat)
    (_file : List TokenData) : List TokenData :=
  [{ cookie_name := some cookie_name, token := some token, expires := some expiration }]

/-- A cookie of the session response.  `expires` is `none` when the cookie
carries no (or a falsy) expiry. -/
structure SessionCookie where
  name : String
  value : String
  expires : Option Nat
  deriving DecidableEq, Repr

/-- The response of `POST {base}/sessions`. -/
structure SessionResponse where
  statusCode : Nat
  cookies : List SessionCookie
  deriving DecidableEq, Repr

/-- `login` (main.py lines 61-82): posts the credentials; on a 200 response
with at least one cookie, takes the first cookie, computes the expiration
(`cookie.expires` if truthy, else `now + 1 hour`), saves the record and
returns the pair with the new file contents.  A non-200 status or an empty
cookie list raises; a network error on the POST raises uncaught. -/
def login (respE : Except Unit SessionResponse) (now : Nat) (file : List TokenData) :
    Except String ((String × String) × List TokenData) :=
  match respE with
  | .error _ => .error "requests exception during login"
  | .ok response =>
    if response.statusCode == 200 then
      match response.cookies with
      | cookie :: _ =>
        .ok ((cookie.name, cookie.value),
          save_token cookie.name cookie.value (cookie.expires.getD (now + 3600)) file)
      | [] => .error "No cookie was received in the response."
    else .error "Login error"

/-- The session-manager flow of main.py lines 252-272 (`getValidToken` in the
specification): read the saved record; if a token came back, use it with no
network call; otherwise perform `login` (one `POST /sessions`).  The second
component records the network calls issued. -/
inductive NetAction where
  | sessionPost
  deriving DecidableEq, Repr

def getValidToken (file : List TokenData) (now : Nat)
    (respE : Except Unit SessionResponse) :
    (Except String ((String × String) × List TokenData)) × List NetAction :=
  match get_saved_token file.head? now with
  | some (c, t) => (.ok ((c, t), file), [])
  | none =>
    match login respE now file with
    | .ok (pair, newFile) => (.ok (pair, newFile), [.sessionPost])
    | .error e => (.error e, [.sessionPost])

namespace DeleteAllJobs

/-- `login` (delete_all_jobs.py lines 60-89): the POST and
`raise_for_status()` are wrapped in try/except; `raise_for_status` raises for
4xx/5xx and that (or a network error) is re-raised as "Login network error";
a response without cookies is re-raised as "Login failed: ...".  Status codes
outside 400-599 pass `raise_for_status`. -/
def login (respE : Except Unit SessionResponse) (now : Nat) (file : List TokenData) :
    Except String ((String × String) × List TokenData) :=
  match respE with
  | .error _ => .error "Login network error"
  | .ok response =>
    if 400 ≤ response.statusCode ∧ response.statusCode < 600 then
      .error "Login network error"
    else
      match response.cookies with
      | cookie :: _ =>
        .ok ((cookie.name, cookie.value),
          save_token cookie.name cookie.value (cookie.expires.getD (now + 3600)) file)
      | [] => .error "Login failed: No session cookie received in the login response."

/-- One entry of the decoded `data` list of `GET /v2/jobs`.  `id` is `none`
when the entry has no (or a falsy) id — such entries are filtered out. -/
structure JobEntry where
  id : Option String
  deriving DecidableEq, Repr

/-- A `GET /v2/jobs` response: status code, and the decoded `data` list
(`none` when the body is not valid JSON). -/
structure JobsResponse where
  statusCode : Nat
  body : Option (List JobEntry)
  deriving DecidableEq, Repr

/-- `list_job_ids` (delete_all_jobs.py lines 92-111): a network error or a
4xx/5xx (`raise_for_status`) is caught and yields `[]`; a JSON decode error is
caught and yields `[]`; otherwise the truthy ids of the `data` entries. -/
def list_job_ids (respE : Except Unit JobsResponse) : Except Unit (List String) :=
  match respE with
  | .error _ => .ok []
  | .ok resp =>
    if 400 ≤ resp.statusCode ∧ resp.statusCode < 600 then .ok []
    else
      match resp.body with
      | none => .ok []
      | some jobs_data => .ok (jobs_data.filterMap (fun job => job.id))

/-- `delete_job` (delete_all_jobs.py lines 114-132): True on 200/204, False on
any other status, False on a caught network error — it never raises. -/
def delete_job (respE : Except Unit Nat) : Except Unit Bool :=
  match respE with
  | .error _ => .ok false
  | .ok code => .ok (code == 200 || code == 204)

/-- The deletion loop of `main` (delete_all_jobs.py lines 163-170), counting
(deleted, failed). -/
def runDeletes (delIn : String → Except Unit Nat) : List String → Except Unit (Nat × Nat)
  | [] => .ok (0, 0)
  | jobId :: rest =>
    match delete_job (delIn jobId) with
    | .error e => .error e
    | .ok true =>
      match runDeletes delIn rest with
      | .error e => .error e
      | .ok (d, f) => .ok (d + 1, f)
    | .ok false =>
      match runDeletes delIn rest with
      | .error e => .error e
      | .ok (d, f) => .ok (d, f + 1)

/-- `main` (delete_all_jobs.py lines 134-179), its result being the process
exit code: no token obtainable exits 1; an empty id list (`if not job_ids`)
exits 0; otherwise delete each job and exit 1 iff any deletion failed. -/
def main (auth : Option (String × String)) (listIn : Except Unit JobsResponse)
    (delIn : String → Except Unit Nat) : Except Unit Nat :=
  match auth with
  | none => .ok 1
  | some _ =>
    match list_job_ids listIn with
    | .error e => .error e
    | .ok job_ids =>
      if job_ids.isEmpty then .ok 0
      else
        match runDeletes delIn job_ids with
        | .error e => .error e
        | .ok (_, failed) => .ok (if failed > 0 then 1 else 0)

end DeleteAllJobs

/-! ## main.py: delete_job and the top-level exit status (lines 217-293) -/

/-- `delete_job` (main.py lines 217-227): issues the DELETE and ignores the
response entirely — the status-code check is commented out — returning `None`.
A raised network exception propagates uncaught. -/
def delete_job_main (respE : Except Unit Nat) : Except Unit Unit :=
  match respE with
  | .error e => .error e
  | .ok _ => .ok ()

/-- The body of `main(STATUS)` (main.py lines 229-284), its result being the
final value of main's LOCAL variable `STATUS` (Python passes the argument by
assignment, so `STATUS = ...` inside main rebinds the parameter only), or an
early `sys.exit` code.  `auth` is the token obtained from cache or login
(`none`: login failed or no token, `sys.exit(1)`); `createResult` the id from
`create_job`; `runResult` the boolean from `run_job`.  Note line 280: when job
creation fails, main sets its local STATUS to True. -/
def mainBody (STATUS : Bool) (auth : Option (String × String))
    (createResult : Option String) (runResult : Bool) : Except Nat Bool :=
  match auth with
  | none => .error 1
  | some _ =>
    match createResult with
    | some _ => .ok runResult
    | none => .ok true

/-- The `if __name__ == "__main__"` block (main.py lines 286-293): binds the
module-level `STATUS = False`, calls `main(STATUS)`, then exits 0 if the
module-level `STATUS` is truthy and 1 otherwise.  The result is the process
exit code. -/
def mainScriptExit (auth : Option (String × String)) (createResult : Option String)
    (runResult : Bool) : Nat :=
  let STATUS := false
  match mainBody STATUS auth createResult runResult with
  | .error code => code
  | .ok _ => if STATUS then 0 else 1

/-- Claim C4: with a persisted record whose expiry is strictly in the future
and whose token and cookie-name fields are present, the session manager
returns the cached pair and issues no network call. -/
theorem cached_token_no_network (d : TokenData) (now : Nat)
    (respE : Except Unit SessionResponse) (c t : String) (e : Nat)
    (hc : d.cookie_name = some c) (htk : d.token = some t)
    (he : d.expires = some e) (hlt : now < e) :
    getValidToken [d] now respE = (.ok ((c, t), [d]), []) := by
  unfold getValidToken
  have hsaved : get_saved_token ([d] : List TokenData).head? now = some (c, t) := by
    simp [get_saved_token, htk, hc, he, hlt]
  rw [hsaved]

/-- Witness for C4 at a concrete record and clock. -/
theorem cached_token_no_network_witness :
    getValidToken [⟨some "clsession", some "tok", some 100⟩] 7 (Except.error ()) =
      (.ok (("clsession", "tok"), [⟨some "clsession", some "tok", some 100⟩]), []) :=
  cached_token_no_network ⟨some "clsession", some "tok", some 100⟩ 7 (Except.error ())
    "clsession" "tok" 100 rfl rfl rfl (by decide)

/-- Claim C5 counterexample: main.py's login raises on a 201 response that
carries a cookie, although 201 is a 2xx status — the code tests
`status_code == 200`, not 2xx. -/
theorem login_201_with_cookie_fails_cex :
    returnsNormally (login (Except.ok ⟨201, [⟨"clsession", "tok", none⟩]⟩) 0 []) = false ∧
      200 ≤ 201 ∧ 201 < 300 ∧
      ([⟨"clsession", "tok", none⟩] : List SessionCookie) ≠ [] := by
  refine ⟨rfl, by decide, by decide, by simp⟩

/-- Claim C5 (amended): main.py's login succeeds exactly on a 200 response
carrying at least one cookie, and raises on a network error, any non-200
status, or a cookieless 200; delete_all_jobs.py's login succeeds exactly on a
response with status outside 400-599 carrying at least one cookie, and raises
on a network error, a 4xx/5xx, or a cookieless response.  Neither retries (a
single request outcome determines the result). -/
theorem login_success_characterization (resp : SessionResponse) (now : Nat)
    (file : List TokenData) :
    (returnsNormally (login (Except.ok resp) now file) = true ↔
      resp.statusCode = 200 ∧ resp.cookies ≠ []) ∧
    returnsNormally (login (Except.error ()) now file) = false ∧
    (returnsNormally (DeleteAllJobs.login (Except.ok resp) now file) = true ↔
      ¬(400 ≤ resp.statusCode ∧ resp.statusCode < 600) ∧ resp.cookies ≠ []) ∧
    returnsNormally (DeleteAllJobs.login (Except.error ()) now file) = false := by
  refine ⟨?_, rfl, ?_, rfl⟩
  · unfold login
    by_cases h200 : resp.statusCode = 200
    · cases hck : resp.cookies with
      | nil => simp [h200, hck, returnsNormally]
      | cons cookie rest => simp [h200, hck, returnsNormally]
    · have : (resp.statusCode == 200) = false := by
        simp [h200]
      simp [this, returnsNormally, h200]
  · unfold DeleteAllJobs.login
    by_cases hbad : 400 ≤ resp.statusCode ∧ resp.statusCode < 600
    · simp [hbad, returnsNormally]
    · cases hck : resp.cookies with
      | nil => simp [hbad, hck, returnsNormally]
      | cons cookie rest => simp [hbad, hck, returnsNormally]

/-- Claim C6: on a successful login the stored expiry is the cookie's own
expiry when it carries one and `now + 1 hour` otherwise, and the credential
file afterwards holds exactly the one new record, whatever it held before
(overwrite, never append). -/
theorem login_expiry_and_overwrite (resp : SessionResponse) (now : Nat)
    (cookie : SessionCookie) (rest : List SessionCookie) (file : List TokenData)
    (h200 : resp.statusCode = 200) (hck : resp.cookies = cookie :: rest) :
    login (Except.ok resp) now file =
      .ok ((cookie.name, cookie.value),
        [{ cookie_name := some cookie.name, token := some cookie.value,
           expires := some (cookie.expires.getD (now + 3600)) }]) := by
  simp [login, h200, hck, save_token]

/-- Witness for C6: a cookie without expiry on a 200 response, over a
previously non-empty credential file. -/
theorem login_expiry_and_overwrite_witness :
    login (Except.ok ⟨200, [⟨"clsession", "tok", none⟩]⟩) 5
        [⟨some "old", some "oldtok", some 1⟩] =
      .ok (("clsession", "tok"), [⟨some "clsession", some "tok", some 3605⟩]) :=
  login_expiry_and_overwrite ⟨200, [⟨"clsession", "tok", none⟩]⟩ 5
    ⟨"clsession", "tok", none⟩ [] [⟨some "old", some "oldtok", some 1⟩] rfl rfl

/-- Claim C7 counterexample: main.py's delete_job does not catch request
failures — on a network error the requests exception propagates to the caller
instead of being converted to a boolean or None result. -/
theorem delete_job_main_raises_cex :
    delete_job_main (Except.error ()) = Except.error () ∧
      returnsNormally (delete_job_main (Except.error ())) = false := ⟨rfl, rfl⟩

/-- Claim C7 (amended): in delete_all_jobs.py lower-level request failures are
caught at the call site and converted to plain results — list_job_ids and
delete_job return normally on every input; in main.py a bad (non-2xx) response
is converted to a None/False result, but a raised network exception propagates
uncaught up the call chain (shown for delete_job and poll_run_status). -/
theorem request_failure_propagation (e1 : Except Unit DeleteAllJobs.JobsResponse)
    (e2 : Except Unit Nat) (resp : RunsResponse) (jobRunId : String) (timeout : Nat)
    (steps : List PollStep) (code : Nat) :
    returnsNormally (DeleteAllJobs.list_job_ids e1) = true ∧
    returnsNormally (DeleteAllJobs.delete_job e2) = true ∧
    delete_job_main (Except.error ()) = Except.error () ∧
    delete_job_main (Except.ok code) = Except.ok () ∧
    (resp.statusCode ≠ 200 →
      pollRunStatus jobRunId timeout (⟨Except.ok resp, 0⟩ :: steps) = .result none) ∧
    pollRunStatus jobRunId timeout (⟨Except.error (), 0⟩ :: steps) = .raised := by
  refine ⟨?_, ?_, rfl, rfl, ?_, ?_⟩
  · unfold DeleteAllJobs.list_job_ids
    cases e1 with
    | error e => rfl
    | ok r =>
      by_cases hbad : 400 ≤ r.statusCode ∧ r.statusCode < 600
      · simp [hbad, returnsNormally]
      · cases hb : r.body <;> simp [hbad, hb, returnsNormally]
  · unfold DeleteAllJobs.delete_job
    cases e2 <;> rfl
  · intro h
    rw [pollRunStatus_cons]
    have hs : stepDecision jobRunId timeout ⟨Except.ok resp, 0⟩ = some (.result none) :=
      (stepDecision_eq_unknown_iff jobRunId timeout ⟨Except.ok resp, 0⟩).mpr
        (Or.inl ⟨resp, rfl, h⟩)
    rw [hs]
    rfl
  · rw [pollRunStatus_cons]
    rfl

/-- Claim C8: deleting a job id the server does not know — the delete request
coming back with any status, 2xx or not — does not crash the process: both
delete_job implementations return normally on every response. -/
theorem delete_nonexistent_job_no_crash (code : Nat) :
    delete_job_main (Except.ok code) = Except.ok () ∧
      returnsNormally (DeleteAllJobs.delete_job (Except.ok code)) = true :=
  ⟨rfl, rfl⟩

/-- Claim C9: whenever main.py's main returns normally, the process exits with
code 1 — even when the job run completed successfully — because `STATUS = ...`
inside main rebinds the local parameter and the module-level STATUS stays
False. -/
theorem main_always_exits_one (auth : Option (String × String))
    (createResult : Option String) (runResult : Bool) (b : Bool)
    (hend : mainBody false auth createResult runResult = Except.ok b) :
    mainScriptExit auth createResult runResult = 1 := by
  simp [mainScriptExit, hend]

/-- Witness for C9: job created and run successfully, yet the exit code is 1. -/
theorem main_always_exits_one_witness :
    mainScriptExit (some ("clsession", "tok")) (some "42") true = 1 :=
  main_always_exits_one (some ("clsession", "tok")) (some "42") true true rfl

/-- Claim C10: in delete_all_jobs.py a failed job listing — network error or
malformed JSON — yields an empty id list, and main then exits 0 exactly as if
there were no jobs. -/
theorem list_failure_exits_zero (c t : String)
    (delIn : String → Except Unit Nat)
    (listIn : Except Unit DeleteAllJobs.JobsResponse)
    (hfail : listIn = Except.error () ∨
      ∃ resp, listIn = Except.ok resp ∧ resp.body = none) :
    DeleteAllJobs.list_job_ids listIn = .ok [] ∧
      DeleteAllJobs.main (some (c, t)) listIn delIn = .ok 0 := by
  have hids : DeleteAllJobs.list_job_ids listIn = .ok [] := by
    rcases hfail with h | ⟨resp, h, hbody⟩
    · subst h
      rfl
    · subst h
      by_cases hbad : 400 ≤ resp.statusCode ∧ resp.statusCode < 600
      · simp [DeleteAllJobs.list_job_ids, hbad]
      · simp [DeleteAllJobs.list_job_ids, hbad, hbody]
  refine ⟨hids, ?_⟩
  simp [DeleteAllJobs.main, hids]

/-- Witness for C10: a network error while listing jobs exits 0. -/
theorem list_failure_exits_zero_witness :
    DeleteAllJobs.list_job_ids (Except.error ()) = .ok [] ∧
      DeleteAllJobs.main (some ("c", "t")) (Except.error ())
        (fun _ => Except.ok 200) = .ok 0 :=
  list_failure_exits_zero "c" "t" (fun _ => Except.ok 200) (Except.error ()) (Or.inl rfl)
